import Mathlib

/-!
Verification of the tool registry / dispatcher / formatter core of the
`trading_system` repository (`backend/mcp_server/tools.py`).

The embedding models:
  - Python string primitives (`str.strip`, `str.upper`, slicing, `sep.join`)
    as structural functions over the character list of a `String`;
  - Python fixed-point number formatting (`:,.2f`, `:.1f`, `:,`, `:,.0f`)
    over exact rationals, rounding half to even at the last kept digit;
  - the `ScrapeResponse` market-data record (the spec's MarketDataResult);
  - the two formatters `_fmt_price` and `_fmt_analysis` (the latter returns
    `Option String`: `none` models the `TypeError` Python raises when a
    fixed-point format spec is applied to `None`);
  - the dispatcher `call_tool`, parameterized by its two collaborators and
    instrumented with an explicit trace of collaborator invocations
    (`List CollabCall`); a raised Python error is `Except.error`.
-/

/-! ## Python string primitives -/

/-- Python `str.strip()`: drop leading and trailing whitespace. -/
def pyStrip (s : String) : String :=
  String.mk (((s.toList.dropWhile Char.isWhitespace).reverse.dropWhile
    Char.isWhitespace).reverse)

/-- Python `str.upper()` (ASCII letters, as in the symbols this code handles). -/
def pyUpper (s : String) : String :=
  String.mk (s.toList.map Char.toUpper)

/-- Python `s[:k]`: the first `k` characters. -/
def pySlice (k : Nat) (s : String) : String :=
  String.mk (s.toList.take k)

/-- Python `sep.join(xs)`. -/
def pyJoin (sep : String) : List String → String
  | [] => ""
  | [x] => x
  | x :: y :: xs => x ++ sep ++ pyJoin sep (y :: xs)

/-! ## Python fixed-point formatting over ℚ

Python's `format` renders a float at fixed precision by rounding the value
half to even at the last kept digit.  The embedding keeps the values exact
(ℚ) and computes on numerator and denominator with integer arithmetic. -/

/-- Round `n / d` (with `d > 0`) to the nearest integer, ties to even. -/
def roundHalfEvenDiv (n d : ℤ) : ℤ :=
  let f := Int.fdiv n d
  let r := n - f * d
  if 2 * r < d then f
  else if d < 2 * r then f + 1
  else if f % 2 = 0 then f else f + 1

/-- Left-pad a numeral string with zeros to width `k`. -/
def padLeftZeros (k : Nat) (s : String) : String :=
  if k ≤ s.length then s
  else String.mk (List.replicate (k - s.length) '0') ++ s

/-- Insert a comma after every third digit, working on a reversed digit list. -/
def groupRev : List Char → List Char
  | a :: b :: c :: d :: rest => a :: b :: c :: ',' :: groupRev (d :: rest)
  | l => l

/-- Thousands grouping of a natural number: Python's `{n:,}`. -/
def groupThousands (n : Nat) : String :=
  String.mk ((groupRev (toString n).toList.reverse).reverse)

/-- Fixed-point rendering of `q` with `p` digits after the point; the integer
part gets thousands grouping when `grouped` is set. -/
def fmtRatCore (grouped : Bool) (p : Nat) (q : ℚ) : String :=
  let scaled := roundHalfEvenDiv (q.num * (10 : ℤ) ^ p) (q.den : ℤ)
  let m := scaled.natAbs
  let d := 10 ^ p
  (if scaled < 0 then "-" else "") ++
    (if grouped then groupThousands (m / d) else toString (m / d)) ++
    (if p = 0 then "" else "." ++ padLeftZeros p (toString (m % d)))

/-- Python `{x:.pf}`. -/
def fmtFixed (p : Nat) (q : ℚ) : String := fmtRatCore false p q

/-- Python `{x:,.pf}`. -/
def fmtCommaFixed (p : Nat) (q : ℚ) : String := fmtRatCore true p q

/-- `q / k`, exactly (models the float division `r.market_cap / 1e7`). -/
def qdivNat (q : ℚ) (k : Nat) : ℚ := mkRat q.num (q.den * k)

/-- `q * k`, exactly (models `r.dividend_yield * 100` and the like). -/
def qmulNat (q : ℚ) (k : Nat) : ℚ := mkRat (q.num * k) q.den

/-! ## Data model -/

/-- Modelled from the spec: a recent news item as the market collaborator
(`backend/services/scraper/market_scraper.py`, not part of the staged
sources) produces it — "NewsItem: {title, publisher, published_at (ISO-8601
or absent), link}". -/
structure NewsItem where
  title : String
  publisher : String
  published_at : Option String
  link : String
  deriving DecidableEq

/-- Modelled from the spec: the market collaborator's result record (the
spec's MarketDataResult, `ScrapeResponse` in the source), with every
optional field an explicit `Option`.  Numeric fields are exact rationals
(the source holds floats), `volume` and `analyst_count` are naturals (the
source holds ints), `timestamp` is the capture timestamp string. -/
structure ScrapeResponse where
  symbol : String
  company_name : Option String
  sector : Option String
  industry : Option String
  description : Option String
  price : Option ℚ
  change : Option ℚ
  change_pct : Option ℚ
  day_low : Option ℚ
  day_high : Option ℚ
  prev_close : Option ℚ
  week_52_low : Option ℚ
  week_52_high : Option ℚ
  volume : Option Nat
  ma_50 : Option ℚ
  ma_200 : Option ℚ
  market_cap : Option ℚ
  pe_ratio : Option ℚ
  forward_pe : Option ℚ
  eps : Option ℚ
  book_value : Option ℚ
  price_to_book : Option ℚ
  dividend_yield : Option ℚ
  beta : Option ℚ
  roe : Option ℚ
  profit_margin : Option ℚ
  debt_to_equity : Option ℚ
  current_ratio : Option ℚ
  recommendation : Option String
  analyst_count : Option Nat
  target_mean_price : Option ℚ
  target_high_price : Option ℚ
  target_low_price : Option ℚ
  news : List NewsItem
  scraped_ok : Bool
  error : Option String
  timestamp : String

/-- Python truthiness of an optional string: `None` and `""` are falsy. -/
def pyOrStr (a : Option String) (b : String) : String :=
  match a with
  | none => b
  | some s => if s = "" then b else s

/-- The `if r.x: out.append(f(r.x))` pattern of the source on an optional
number: a normalized rational is zero exactly when its numerator is. -/
def optQLine (v : Option ℚ) (f : ℚ → String) : List String :=
  match v with
  | some q => if q.num = 0 then [] else [f q]
  | none => []

/-! ## `_fmt_price` — the concise layout -/

/-- The `lines` list `_fmt_price` builds before joining with newlines
(`tools.py`, lines 93–124). -/
def fmtPriceLines (r : ScrapeResponse) : List String :=
  let name := pyOrStr r.company_name r.symbol
  let header := r.symbol ++ " (" ++ name ++ ") | NSE"
  let priceLine : List String :=
    match r.price with
    | none => []
    | some p =>
      let change_str :=
        match r.change, r.change_pct with
        | some c, some cp =>
          let sign := if 0 ≤ c.num then "+" else ""
          "  |  Change: " ++ sign ++ "₹" ++ fmtFixed 2 c ++ " (" ++ sign ++
            fmtFixed 2 cp ++ "%)"
        | _, _ => ""
      ["Price: ₹" ++ fmtCommaFixed 2 p ++ change_str]
  let dayLine : List String :=
    match r.day_low, r.day_high with
    | some lo, some hi =>
      let prev :=
        match r.prev_close with
        | some pc =>
          if pc.num = 0 then "" else "  |  Prev Close: ₹" ++ fmtCommaFixed 2 pc
        | none => ""
      ["Day Range: ₹" ++ fmtCommaFixed 2 lo ++ " – ₹" ++ fmtCommaFixed 2 hi ++ prev]
    | _, _ => []
  let weekLine : List String :=
    match r.week_52_low, r.week_52_high with
    | some lo, some hi =>
      ["52W Range: ₹" ++ fmtCommaFixed 2 lo ++ " – ₹" ++ fmtCommaFixed 2 hi]
    | _, _ => []
  let parts : List String :=
    (match r.volume with
     | some v => if v = 0 then [] else ["Volume: " ++ groupThousands v]
     | none => []) ++
    optQLine r.ma_50 (fun q => "MA50: ₹" ++ fmtCommaFixed 2 q) ++
    optQLine r.ma_200 (fun q => "MA200: ₹" ++ fmtCommaFixed 2 q)
  let maLine : List String := if parts = [] then [] else [pyJoin "  |  " parts]
  [header] ++ priceLine ++ dayLine ++ weekLine ++ maLine ++
    ["[Source: Yahoo Finance  |  As of: " ++ pySlice 19 r.timestamp ++ "]"]

/-- `_fmt_price` (`tools.py`, lines 93–124): the concise price summary. -/
def _fmt_price (r : ScrapeResponse) : String :=
  pyJoin "\n" (fmtPriceLines r)

/-! ## `_fmt_analysis` — the detailed layout -/

/-- The `fund` list of `_fmt_analysis` (`tools.py`, lines 146–171). -/
def fundLines (r : ScrapeResponse) : List String :=
  optQLine r.market_cap
    (fun q => "Market Cap: ₹" ++ fmtCommaFixed 0 (qdivNat q 10000000) ++ " Cr") ++
  optQLine r.pe_ratio (fun q => "P/E (TTM): " ++ fmtFixed 1 q) ++
  optQLine r.forward_pe (fun q => "Forward P/E: " ++ fmtFixed 1 q) ++
  optQLine r.eps (fun q => "EPS (TTM): ₹" ++ fmtFixed 2 q) ++
  optQLine r.book_value (fun q => "Book Value: ₹" ++ fmtFixed 2 q) ++
  optQLine r.price_to_book (fun q => "P/B Ratio: " ++ fmtFixed 2 q ++ "x") ++
  optQLine r.dividend_yield
    (fun q => "Dividend Yield: " ++ fmtFixed 2 (qmulNat q 100) ++ "%") ++
  optQLine r.beta (fun q => "Beta: " ++ fmtFixed 2 q) ++
  optQLine r.roe (fun q => "ROE: " ++ fmtFixed 1 (qmulNat q 100) ++ "%") ++
  optQLine r.profit_margin
    (fun q => "Net Margin: " ++ fmtFixed 1 (qmulNat q 100) ++ "%") ++
  optQLine r.debt_to_equity (fun q => "D/E Ratio: " ++ fmtFixed 2 q) ++
  optQLine r.current_ratio (fun q => "Current Ratio: " ++ fmtFixed 2 q)

/-- The consensus line of the analyst block (`tools.py`, lines 178–180). -/
def consensusLines (r : ScrapeResponse) : List String :=
  match r.recommendation with
  | some rec =>
    if rec = "" then []
    else
      let count :=
        match r.analyst_count with
        | some n => if n = 0 then "" else " (" ++ toString n ++ " analysts)"
        | none => ""
      ["Consensus: " ++ pyUpper rec ++ count]
  | none => []

/-- The price-target line of the analyst block (`tools.py`, lines 181–186).
When the mean target is truthy, the high and the low targets are formatted
with `:,.2f` unguarded: an absent one makes Python raise `TypeError`,
modelled as `none`. -/
def targetLines (r : ScrapeResponse) : Option (List String) :=
  match r.target_mean_price with
  | some m =>
    if m.num = 0 then some []
    else
      match r.target_high_price, r.target_low_price with
      | some hi, some lo =>
        some ["Price Targets:  Mean ₹" ++ fmtCommaFixed 2 m ++
          "  |  High ₹" ++ fmtCommaFixed 2 hi ++
          "  |  Low ₹" ++ fmtCommaFixed 2 lo]
      | _, _ => none
  | none => some []

/-- The two lines one news item contributes (`tools.py`, lines 195–197),
with its 1-based number `i`. -/
def newsItemLines (i : Nat) (item : NewsItem) : List String :=
  let pub_date :=
    match item.published_at with
    | some d => if d = "" then "N/A" else pySlice 10 d
    | none => "N/A"
  [toString i ++ ". " ++ item.title,
   "   " ++ item.publisher ++ "  |  " ++ pub_date ++ "  |  " ++ item.link]

/-- `for i, item in enumerate(r.news[:5], 1)` unrolled: two lines per item,
numbering from `i`. -/
def newsEnum : Nat → List NewsItem → List String
  | _, [] => []
  | i, item :: rest => newsItemLines i item ++ newsEnum (i + 1) rest

/-- The "RECENT NEWS" block (`tools.py`, lines 192–197): absent when the
news list is empty. -/
def newsSectionLines (ns : List NewsItem) : List String :=
  match ns with
  | [] => []
  | _ => "\n── RECENT NEWS ──" :: newsEnum 1 (ns.take 5)

/-- `_fmt_analysis` (`tools.py`, lines 127–200): the detailed multi-section
analysis.  `none` models the `TypeError` raised when the price-target line
formats an absent high or low target. -/
def _fmt_analysis (r : ScrapeResponse) : Option String :=
  match targetLines r with
  | none => none
  | some tl =>
    let name := pyOrStr r.company_name r.symbol
    let banner := String.mk (List.replicate 60 '=')
    let sectorLine : List String :=
      if pyOrStr r.sector "" ≠ "" ∨ pyOrStr r.industry "" ≠ "" then
        ["Sector: " ++ pyOrStr r.sector "N/A" ++ "  |  Industry: " ++
          pyOrStr r.industry "N/A"]
      else []
    let business : List String :=
      match r.description with
      | some d => if d = "" then [] else ["\nBusiness: " ++ pyStrip d]
      | none => []
    let fund := fundLines r
    let fundSection := if fund = [] then [] else "\n── FUNDAMENTALS ──" :: fund
    let analyst := consensusLines r ++ tl
    let analystSection :=
      if analyst = [] then [] else "\n── ANALYST VIEW ──" :: analyst
    some (pyJoin "\n"
      ([banner, r.symbol ++ "  —  " ++ name, banner] ++
        sectorLine ++ business ++
        ["\n── PRICE ──", _fmt_price r] ++
        fundSection ++ analystSection ++
        newsSectionLines r.news ++
        ["\n[Source: Yahoo Finance  |  As of: " ++ pySlice 19 r.timestamp ++ "]"]))

/-! ## Tool registry -/

/-- One named parameter of a tool's input schema. -/
structure SchemaProperty where
  name : String
  type : String
  description : String

/-- A tool's input schema (`inputSchema` in the registry). -/
structure InputSchema where
  type : String
  properties : List SchemaProperty
  required : List String

/-- A registered tool descriptor (`mcp.types.Tool` as the registry uses it). -/
structure Tool where
  name : String
  description : String
  inputSchema : InputSchema

/-- The tool registry `TOOLS` (`tools.py`, lines 30–88). -/
def TOOLS : List Tool :=
  [{ name := "get_stock_price"
     description :=
       "Get the current market price and basic trading stats for an NSE-listed stock. " ++
       "Returns price, day high/low, 52-week range, volume, and moving averages. " ++
       "Use this for quick price checks."
     inputSchema :=
       { type := "object"
         properties :=
           [{ name := "symbol"
              type := "string"
              description :=
                "NSE stock symbol (e.g. 'TCS', 'RELIANCE', 'HDFCBANK'). " ++
                "Do NOT add .NS — it is added automatically." }]
         required := ["symbol"] } },
   { name := "get_stock_analysis"
     description :=
       "Get a comprehensive stock analysis for an NSE-listed company. " ++
       "Includes price data, fundamentals (P/E, EPS, market cap, ROE, D/E, margins), " ++
       "analyst consensus (rating + price targets), and the 5 most recent news headlines. " ++
       "Use this when the user asks for a full stock overview or research."
     inputSchema :=
       { type := "object"
         properties :=
           [{ name := "symbol"
              type := "string"
              description := "NSE stock symbol (e.g. 'TCS', 'RELIANCE', 'HDFCBANK')." }]
         required := ["symbol"] } },
   { name := "scrape_url"
     description :=
       "Fetch any public web URL and return clean plain-text content, " ++
       "with all HTML tags, scripts, ads, and navigation stripped out. " ++
       "Useful for reading financial news articles, analyst reports, " ++
       "NSE/BSE announcements, or any web page the user provides."
     inputSchema :=
       { type := "object"
         properties :=
           [{ name := "url"
              type := "string"
              description :=
                "Fully-qualified URL to fetch, e.g. 'https://www.moneycontrol.com/...'" }]
         required := ["url"] } }]

/-- The registered tool names in registry order (`[t.name for t in TOOLS]`). -/
def registeredNames : List String := TOOLS.map Tool.name

/-! ## Dispatcher -/

/-- A Python argument value as the dispatcher can see it: `None` or a string. -/
inductive PyVal
  | vNone
  | vStr (s : String)
  deriving DecidableEq

/-- The `arguments` mapping of a tool call. -/
def Args := List (String × PyVal)

/-- Python `arguments.get(key)`: `None`-producing lookup. -/
def dictGet : Args → String → Option PyVal
  | [], _ => none
  | (k, v) :: rest, key => if k = key then some v else dictGet rest key

/-- Python `arguments.get(key) or ""`: an absent key, a `None` value and an
empty string all collapse to `""`. -/
def pyGetOrEmpty (args : Args) (key : String) : String :=
  match dictGet args key with
  | none => ""
  | some .vNone => ""
  | some (.vStr s) => s

/-- A Python error the dispatcher can raise: `ValueError` for an unknown tool
name, `TypeError` for a format spec applied to `None`. -/
inductive PyError
  | valueError (msg : String)
  | typeError
  deriving DecidableEq

/-- One collaborator invocation, recorded in the dispatch trace. -/
inductive CollabCall
  | market (symbol : String) (include_news : Bool) (include_fundamentals : Bool)
  | web (url : String)
  deriving DecidableEq

/-- Python's `repr` of a list of strings, as an f-string renders
`{available}`. -/
def pyListRepr (xs : List String) : String :=
  "[" ++ pyJoin ", " (xs.map (fun s => "'" ++ s ++ "'")) ++ "]"

/-- Python's rendering of an optional string inside an f-string: `None`
prints as `"None"`. -/
def pyStr : Option String → String
  | none => "None"
  | some s => s

/-- The message of the `ValueError` raised for an unknown tool name
(`tools.py`, line 234). -/
def unknownToolMessage (name : String) : String :=
  "Unknown tool: '" ++ name ++ "'. Available tools: " ++ pyListRepr registeredNames

/-- `call_tool` (`tools.py`, lines 205–234), parameterized by the two
collaborators (`_market.scrape_one` and `_scrape_url`) and instrumented
with the trace of collaborator invocations.  A returned text is `.ok`, a
raised Python error is `.error`. -/
def call_tool (name : String) (arguments : Args)
    (scrape_one : String → Bool → Bool → ScrapeResponse)
    (_scrape_url : String → String) :
    Except PyError String × List CollabCall :=
  if name = "get_stock_price" then
    let symbol := pyUpper (pyStrip (pyGetOrEmpty arguments "symbol"))
    if symbol = "" then (.ok "Error: 'symbol' parameter is required.", [])
    else
      let result := scrape_one symbol false false
      let trace := [CollabCall.market symbol false false]
      if result.scraped_ok = false then
        (.ok ("Could not fetch price for " ++ symbol ++ ": " ++ pyStr result.error),
          trace)
      else (.ok (_fmt_price result), trace)
  else if name = "get_stock_analysis" then
    let symbol := pyUpper (pyStrip (pyGetOrEmpty arguments "symbol"))
    if symbol = "" then (.ok "Error: 'symbol' parameter is required.", [])
    else
      let result := scrape_one symbol true true
      let trace := [CollabCall.market symbol true true]
      if result.scraped_ok = false then
        (.ok ("Could not fetch analysis for " ++ symbol ++ ": " ++ pyStr result.error),
          trace)
      else
        match _fmt_analysis result with
        | some text => (.ok text, trace)
        | none => (.error .typeError, trace)
  else if name = "scrape_url" then
    let url := pyStrip (pyGetOrEmpty arguments "url")
    if url = "" then (.ok "Error: 'url' parameter is required.", [])
    else (.ok (_scrape_url url), [CollabCall.web url])
  else
    (.error (.valueError (unknownToolMessage name)), [])

/-! ## Concrete fixtures -/

/-- A result with every optional field absent: the base the concrete test
inputs below are built from. -/
def baseResult : ScrapeResponse where
  symbol := "TCS"
  company_name := none
  sector := none
  industry := none
  description := none
  price := none
  change := none
  change_pct := none
  day_low := none
  day_high := none
  prev_close := none
  week_52_low := none
  week_52_high := none
  volume := none
  ma_50 := none
  ma_200 := none
  market_cap := none
  pe_ratio := none
  forward_pe := none
  eps := none
  book_value := none
  price_to_book := none
  dividend_yield := none
  beta := none
  roe := none
  profit_margin := none
  debt_to_equity := none
  current_ratio := none
  recommendation := none
  analyst_count := none
  target_mean_price := none
  target_high_price := none
  target_low_price := none
  news := []
  scraped_ok := true
  error := none
  timestamp := "2025-01-15T10:30:00+05:30"

/-- The spec's §8 concrete price example: symbol TCS, price 3500.00,
change +12.5, change% +0.36. -/
def rTCS : ScrapeResponse :=
  { baseResult with
    company_name := some "Tata Consultancy Services"
    price := some (mkRat 3500 1)
    change := some (mkRat 25 2)
    change_pct := some (mkRat 36 100) }

/-- Mean analyst target present, high and low targets absent: the input on
which the price-target line of `_fmt_analysis` is evaluated for C1. -/
def rMeanOnly : ScrapeResponse :=
  { baseResult with target_mean_price := some (mkRat 3800 1) }

/-- A seven-item news list for the C6 witness: more items than the five the
block may show. -/
def newsFixture : List NewsItem :=
  [{ title := "Headline one", publisher := "Mint",
     published_at := some "2025-01-10T08:00:00Z", link := "https://x/1" },
   { title := "Headline two", publisher := "Reuters",
     published_at := none, link := "https://x/2" },
   { title := "Headline three", publisher := "ET",
     published_at := some "2025-01-08T12:30:00Z", link := "https://x/3" },
   { title := "Headline four", publisher := "Bloomberg",
     published_at := some "2025-01-07T09:15:00Z", link := "https://x/4" },
   { title := "Headline five", publisher := "Mint",
     published_at := some "2025-01-06T17:45:00Z", link := "https://x/5" },
   { title := "Headline six", publisher := "Reuters",
     published_at := some "2025-01-05T11:00:00Z", link := "https://x/6" },
   { title := "Headline seven", publisher := "ET",
     published_at := some "2025-01-04T10:05:00Z", link := "https://x/7" }]

/-- The stub market collaborator for the C4 witness: every fetch fails with
`error="rate limited"`. -/
def marketRateLimited : String → Bool → Bool → ScrapeResponse :=
  fun _ _ _ => { baseResult with scraped_ok := false, error := some "rate limited" }

/-! ## Helper lemmas -/

theorem pyStrip_empty : pyStrip "" = "" := rfl

theorem pyUpper_empty : pyUpper "" = "" := rfl

/-! ## Claims -/

/-- C1: the claim says the detailed formatter succeeds on every result whose
mean analyst target is present, even when the high or the low target is
absent.  The code violates this: on `rMeanOnly` (mean target present, high
and low targets absent) the price-target line applies `:,.2f` to `None` and
raises `TypeError` — the formatter is not total there (`_fmt_analysis`
returns `none`).  On the same input with all three targets present it
succeeds. -/
theorem analysis_crashes_on_absent_high_low_target :
    rMeanOnly.target_mean_price = some (mkRat 3800 1) ∧
    rMeanOnly.target_high_price = none ∧
    rMeanOnly.target_low_price = none ∧
    _fmt_analysis rMeanOnly = none ∧
    _fmt_analysis { rMeanOnly with
      target_high_price := some (mkRat 4000 1)
      target_low_price := some (mkRat 3200 1) } ≠ none := by
  refine ⟨rfl, rfl, rfl, by decide, by decide⟩

/-- C2: for every tool name outside the registered set, dispatch raises (does
not return) a `ValueError` whose message enumerates exactly the registered
tool names in registry order, and no collaborator is invoked. -/
theorem dispatch_unknown_tool_raises (name : String) (args : Args)
    (scrape_one : String → Bool → Bool → ScrapeResponse)
    (_scrape_url : String → String)
    (h : name ∉ registeredNames) :
    call_tool name args scrape_one _scrape_url =
      (.error (.valueError (unknownToolMessage name)), []) ∧
    unknownToolMessage name =
      "Unknown tool: '" ++ name ++ "'. Available tools: " ++
        "['get_stock_price', 'get_stock_analysis', 'scrape_url']" ∧
    registeredNames = ["get_stock_price", "get_stock_analysis", "scrape_url"] := by
  have hreg : registeredNames = ["get_stock_price", "get_stock_analysis", "scrape_url"] := by
    decide
  rw [hreg] at h
  simp only [List.mem_cons, List.not_mem_nil, or_false, not_or] at h
  obtain ⟨h1, h2, h3⟩ := h
  have hmsg : pyListRepr registeredNames =
      "['get_stock_price', 'get_stock_analysis', 'scrape_url']" := by decide
  refine ⟨?_, ?_, hreg⟩
  · simp [call_tool, h1, h2, h3]
  · rw [unknownToolMessage, hmsg]

/-- C2 witness: the unregistered name "frobnicate" raises the `ValueError`
with the full registry enumeration. -/
theorem dispatch_unknown_tool_raises_witness :
    call_tool "frobnicate" [] (fun _ _ _ => baseResult) (fun _ => "") =
      (.error (.valueError (unknownToolMessage "frobnicate")), []) ∧
    unknownToolMessage "frobnicate" =
      "Unknown tool: 'frobnicate'. Available tools: " ++
        "['get_stock_price', 'get_stock_analysis', 'scrape_url']" := by
  have h := dispatch_unknown_tool_raises "frobnicate" []
    (fun _ _ _ => baseResult) (fun _ => "") (by decide)
  exact ⟨h.1, by decide⟩

/-- C5: on the spec's concrete example (TCS, price 3500.00, change +12.5,
change% +0.36) the concise layout's price line — the second of the lines the
layout joins — is exactly the specified text, and the whole concise output
confirms it in place. -/
theorem concise_price_line_TCS :
    (fmtPriceLines rTCS).get? 1 =
      some "Price: ₹3,500.00  |  Change: +₹12.50 (+0.36%)" ∧
    _fmt_price rTCS =
      "TCS (Tata Consultancy Services) | NSE\n" ++
      "Price: ₹3,500.00  |  Change: +₹12.50 (+0.36%)\n" ++
      "[Source: Yahoo Finance  |  As of: 2025-01-15T10:30:00]" := by
  exact ⟨by decide, by decide⟩

/-- C9: both formatters are pure functions of the result record — identical
inputs produce identical text, byte for byte. -/
theorem formatters_are_pure_functions (r₁ r₂ : ScrapeResponse) (h : r₁ = r₂) :
    _fmt_price r₁ = _fmt_price r₂ ∧ _fmt_analysis r₁ = _fmt_analysis r₂ := by
  subst h
  exact ⟨rfl, rfl⟩

/-- C9 witness: instantiated at the concrete TCS fixture. -/
theorem formatters_are_pure_functions_witness :
    _fmt_price rTCS = _fmt_price rTCS ∧ _fmt_analysis rTCS = _fmt_analysis rTCS :=
  formatters_are_pure_functions rTCS rTCS rfl

/-- C3: when the required argument is absent, empty or whitespace-only (its
stripped value is empty), dispatch returns exactly the literal
required-parameter error string, and the collaborator trace is empty — no
collaborator is invoked. -/
theorem dispatch_missing_required_param (args : Args)
    (scrape_one : String → Bool → Bool → ScrapeResponse)
    (_scrape_url : String → String) :
    (pyStrip (pyGetOrEmpty args "symbol") = "" →
      call_tool "get_stock_price" args scrape_one _scrape_url =
        (.ok "Error: 'symbol' parameter is required.", []) ∧
      call_tool "get_stock_analysis" args scrape_one _scrape_url =
        (.ok "Error: 'symbol' parameter is required.", [])) ∧
    (pyStrip (pyGetOrEmpty args "url") = "" →
      call_tool "scrape_url" args scrape_one _scrape_url =
        (.ok "Error: 'url' parameter is required.", [])) := by
  constructor
  · intro h
    constructor <;> simp [call_tool, h, pyUpper_empty]
  · intro h
    simp [call_tool, h]

/-- C3 witness: a whitespace-only symbol and an absent url, at concrete
inputs. -/
theorem dispatch_missing_required_param_witness :
    call_tool "get_stock_price" [("symbol", PyVal.vStr "   ")]
        (fun _ _ _ => baseResult) (fun _ => "") =
      (.ok "Error: 'symbol' parameter is required.", []) ∧
    call_tool "scrape_url" [] (fun _ _ _ => baseResult) (fun _ => "") =
      (.ok "Error: 'url' parameter is required.", []) := by
  have h := dispatch_missing_required_param [("symbol", PyVal.vStr "   ")]
    (fun _ _ _ => baseResult) (fun _ => "")
  have h' := dispatch_missing_required_param []
    (fun _ _ _ => baseResult) (fun _ => "")
  exact ⟨(h.1 (by decide)).1, h'.2 (by decide)⟩

/-- C10: a required argument key bound to `None` is treated exactly like an
absent key: the getter collapses it to the empty string and dispatch returns
the required-parameter error text (it does not fail), invoking no
collaborator. -/
theorem dispatch_null_argument_like_absent (args : Args)
    (scrape_one : String → Bool → Bool → ScrapeResponse)
    (_scrape_url : String → String) :
    (dictGet args "symbol" = some PyVal.vNone →
      pyGetOrEmpty args "symbol" = "" ∧
      call_tool "get_stock_price" args scrape_one _scrape_url =
        (.ok "Error: 'symbol' parameter is required.", []) ∧
      call_tool "get_stock_analysis" args scrape_one _scrape_url =
        (.ok "Error: 'symbol' parameter is required.", [])) ∧
    (dictGet args "url" = some PyVal.vNone →
      pyGetOrEmpty args "url" = "" ∧
      call_tool "scrape_url" args scrape_one _scrape_url =
        (.ok "Error: 'url' parameter is required.", [])) := by
  constructor
  · intro h
    have hget : pyGetOrEmpty args "symbol" = "" := by rw [pyGetOrEmpty, h]
    exact ⟨hget, by simp [call_tool, hget, pyStrip_empty, pyUpper_empty],
      by simp [call_tool, hget, pyStrip_empty, pyUpper_empty]⟩
  · intro h
    have hget : pyGetOrEmpty args "url" = "" := by rw [pyGetOrEmpty, h]
    exact ⟨hget, by simp [call_tool, hget, pyStrip_empty]⟩

/-- C10 witness: `{"symbol": None}` and `{"url": None}` at concrete inputs. -/
theorem dispatch_null_argument_like_absent_witness :
    call_tool "get_stock_price" [("symbol", PyVal.vNone)]
        (fun _ _ _ => baseResult) (fun _ => "") =
      (.ok "Error: 'symbol' parameter is required.", []) ∧
    call_tool "scrape_url" [("url", PyVal.vNone)]
        (fun _ _ _ => baseResult) (fun _ => "") =
      (.ok "Error: 'url' parameter is required.", []) := by
  have h := dispatch_null_argument_like_absent [("symbol", PyVal.vNone)]
    (fun _ _ _ => baseResult) (fun _ => "")
  have h' := dispatch_null_argument_like_absent [("url", PyVal.vNone)]
    (fun _ _ _ => baseResult) (fun _ => "")
  exact ⟨(h.1 (by decide)).2.1, (h'.2 (by decide)).2⟩

/-- C4: whenever the collaborator result of a `get_stock_price` call has
`scraped_ok = false`, dispatch returns (does not raise) exactly
`"Could not fetch price for {symbol}: {error}"`, with the normalized symbol
and the collaborator's error text interpolated. -/
theorem get_stock_price_fetch_failure (args : Args)
    (scrape_one : String → Bool → Bool → ScrapeResponse)
    (_scrape_url : String → String)
    (h : pyUpper (pyStrip (pyGetOrEmpty args "symbol")) ≠ "")
    (hfail : (scrape_one (pyUpper (pyStrip (pyGetOrEmpty args "symbol"))) false
      false).scraped_ok = false) :
    call_tool "get_stock_price" args scrape_one _scrape_url =
      (.ok ("Could not fetch price for " ++
          pyUpper (pyStrip (pyGetOrEmpty args "symbol")) ++ ": " ++
          pyStr (scrape_one (pyUpper (pyStrip (pyGetOrEmpty args "symbol"))) false
            false).error),
        [CollabCall.market (pyUpper (pyStrip (pyGetOrEmpty args "symbol"))) false
          false]) := by
  simp [call_tool, h, hfail]

/-- C4 witness: symbol "TCS", error "rate limited" — the returned text is
exactly `"Could not fetch price for TCS: rate limited"`. -/
theorem get_stock_price_fetch_failure_witness :
    call_tool "get_stock_price" [("symbol", PyVal.vStr "TCS")]
        marketRateLimited (fun _ => "") =
      (.ok "Could not fetch price for TCS: rate limited",
        [CollabCall.market "TCS" false false]) := by
  have h := get_stock_price_fetch_failure [("symbol", PyVal.vStr "TCS")]
    marketRateLimited (fun _ => "") (by decide) (by decide)
  exact h.trans (by rfl)

/-- C7: every truthiness-checked optional numeric field valued exactly 0 is
omitted from its block just as when the field is absent: replacing the value
`0` by "absent" leaves the formatted output unchanged, for the volume,
moving-average and previous-close sub-fields of the concise layout and for
every fundamentals field of the detailed layout. -/
theorem zero_valued_field_omitted_like_absent (r : ScrapeResponse) :
    (_fmt_price { r with volume := some 0 } =
      _fmt_price { r with volume := none }) ∧
    (_fmt_price { r with ma_50 := some 0 } =
      _fmt_price { r with ma_50 := none }) ∧
    (_fmt_price { r with ma_200 := some 0 } =
      _fmt_price { r with ma_200 := none }) ∧
    (_fmt_price { r with prev_close := some 0 } =
      _fmt_price { r with prev_close := none }) ∧
    (_fmt_analysis { r with volume := some 0 } =
      _fmt_analysis { r with volume := none }) ∧
    (_fmt_analysis { r with market_cap := some 0 } =
      _fmt_analysis { r with market_cap := none }) ∧
    (_fmt_analysis { r with pe_ratio := some 0 } =
      _fmt_analysis { r with pe_ratio := none }) ∧
    (_fmt_analysis { r with forward_pe := some 0 } =
      _fmt_analysis { r with forward_pe := none }) ∧
    (_fmt_analysis { r with eps := some 0 } =
      _fmt_analysis { r with eps := none }) ∧
    (_fmt_analysis { r with book_value := some 0 } =
      _fmt_analysis { r with book_value := none }) ∧
    (_fmt_analysis { r with price_to_book := some 0 } =
      _fmt_analysis { r with price_to_book := none }) ∧
    (_fmt_analysis { r with dividend_yield := some 0 } =
      _fmt_analysis { r with dividend_yield := none }) ∧
    (_fmt_analysis { r with beta := some 0 } =
      _fmt_analysis { r with beta := none }) ∧
    (_fmt_analysis { r with roe := some 0 } =
      _fmt_analysis { r with roe := none }) ∧
    (_fmt_analysis { r with profit_margin := some 0 } =
      _fmt_analysis { r with profit_margin := none }) ∧
    (_fmt_analysis { r with debt_to_equity := some 0 } =
      _fmt_analysis { r with debt_to_equity := none }) ∧
    (_fmt_analysis { r with current_ratio := some 0 } =
      _fmt_analysis { r with current_ratio := none }) := by
  exact ⟨rfl, rfl, rfl, rfl, rfl, rfl, rfl, rfl, rfl, rfl, rfl, rfl, rfl, rfl,
    rfl, rfl, rfl⟩

theorem pyUpper_ne_empty {s : String} (h : s ≠ "") : pyUpper s ≠ "" := by
  intro e
  apply h
  have hd : s.toList.map Char.toUpper = ([] : List Char) := congrArg String.data e
  have ht : s.toList = [] := List.map_eq_nil_iff.mp hd
  exact congrArg String.mk ht

/-- C8: with a symbol argument that is non-empty after stripping, dispatch
for both market tools invokes the collaborator exactly once, with the
stripped upper-cased symbol (and the tool's news/fundamentals flags). -/
theorem dispatch_normalizes_symbol (args : Args)
    (scrape_one : String → Bool → Bool → ScrapeResponse)
    (_scrape_url : String → String)
    (h : pyStrip (pyGetOrEmpty args "symbol") ≠ "") :
    (call_tool "get_stock_price" args scrape_one _scrape_url).2 =
      [CollabCall.market (pyUpper (pyStrip (pyGetOrEmpty args "symbol")))
        false false] ∧
    (call_tool "get_stock_analysis" args scrape_one _scrape_url).2 =
      [CollabCall.market (pyUpper (pyStrip (pyGetOrEmpty args "symbol")))
        true true] := by
  have hne := pyUpper_ne_empty h
  constructor
  · simp only [call_tool, if_neg hne, reduceIte]
    by_cases hok :
        (scrape_one (pyUpper (pyStrip (pyGetOrEmpty args "symbol"))) false
          false).scraped_ok = false <;>
      simp [hok]
  · simp only [call_tool, if_neg hne, reduceIte]
    by_cases hok :
        (scrape_one (pyUpper (pyStrip (pyGetOrEmpty args "symbol"))) true
          true).scraped_ok = false
    · simp [hok]
    · simp only [hok, if_neg, Bool.false_eq_true, if_false]
      cases hfmt :
        _fmt_analysis (scrape_one (pyUpper (pyStrip (pyGetOrEmpty args "symbol")))
          true true) <;> simp [hfmt]

/-- C8 witness: `dispatch("get_stock_price", {symbol: " tcs "})` invokes the
market collaborator with "TCS" (and the analysis tool does too). -/
theorem dispatch_normalizes_symbol_witness :
    (call_tool "get_stock_price" [("symbol", PyVal.vStr " tcs ")]
      (fun _ _ _ => baseResult) (fun _ => "")).2 =
      [CollabCall.market "TCS" false false] ∧
    (call_tool "get_stock_analysis" [("symbol", PyVal.vStr " tcs ")]
      (fun _ _ _ => baseResult) (fun _ => "")).2 =
      [CollabCall.market "TCS" true true] := by
  have h := dispatch_normalizes_symbol [("symbol", PyVal.vStr " tcs ")]
    (fun _ _ _ => baseResult) (fun _ => "") (by decide)
  exact ⟨h.1.trans (by rfl), h.2.trans (by rfl)⟩

theorem newsEnum_eq (i : Nat) (l : List NewsItem) :
    newsEnum i l = (l.enumFrom i).flatMap (fun p => newsItemLines p.1 p.2) := by
  induction l generalizing i with
  | nil => rfl
  | cons a t ih => simp [newsEnum, List.enumFrom, ih]

/-- C6: for a non-empty news list, the "RECENT NEWS" block is the header
followed by exactly the first `min 5 n` items of the list, in input order,
numbered consecutively from 1, each contributing its title line and then a
publisher / date (first 10 characters of the published timestamp, `"N/A"`
when it is absent) / link line. -/
theorem recent_news_block (ns : List NewsItem) (h : ns ≠ []) :
    newsSectionLines ns =
      "\n── RECENT NEWS ──" ::
        ((ns.take 5).enumFrom 1).flatMap
          (fun p =>
            [toString p.1 ++ ". " ++ p.2.title,
             "   " ++ p.2.publisher ++ "  |  " ++
               (match p.2.published_at with
                | some d => if d = "" then "N/A" else pySlice 10 d
                | none => "N/A") ++ "  |  " ++ p.2.link]) ∧
    ((ns.take 5).enumFrom 1).length = min 5 ns.length := by
  constructor
  · match ns, h with
    | a :: t, _ =>
      show "\n── RECENT NEWS ──" :: newsEnum 1 ((a :: t).take 5) = _
      rw [newsEnum_eq]
      rfl
  · rw [List.enumFrom_length, List.length_take]

/-- C6 witness: a seven-item news list yields exactly five numbered entries,
in input order. -/
theorem recent_news_block_witness :
    newsSectionLines newsFixture =
      "\n── RECENT NEWS ──" ::
        ((newsFixture.take 5).enumFrom 1).flatMap
          (fun p =>
            [toString p.1 ++ ". " ++ p.2.title,
             "   " ++ p.2.publisher ++ "  |  " ++
               (match p.2.published_at with
                | some d => if d = "" then "N/A" else pySlice 10 d
                | none => "N/A") ++ "  |  " ++ p.2.link]) ∧
    ((newsFixture.take 5).enumFrom 1).length = min 5 newsFixture.length :=
  recent_news_block newsFixture (by decide)
